import Mathlib

/-!
A formal model of the fraud-detection scoring service in
`src/ml_service/app.py`, together with proofs about its score
normalization, decision rule, confidence measure, explanation generator
and error-handling paths.

Numeric conventions: the Python float values carried by requests and fed
to the string formatters are modelled as rationals; the scores produced
by the external scoring capability and the logistic squash applied to
them are modelled as real numbers.  The `np.array([[...]])` single-row
batch is modelled as a plain 8-element list of feature values.
-/

namespace MLService

/-- Input schema of `/predict` (`TransactionRequest`, app.py lines 93-108).
Optional fields keep their Pydantic `Optional` type; the Lean field
defaults mirror the `Field` defaults that Pydantic applies when a field
is absent from the request body. -/
structure TransactionRequest where
  amount : ℚ
  accountAgeDays : Option ℤ := none
  confidence : Option ℚ := none
  totalCost : Option ℚ := some 0
  newAccount : Option Bool := some false
  internationalTransfer : Option Bool := some false
  unusualHour : Option Bool := some false
  riskFlagCount : Option ℤ := some 0

/-- Output schema of `/predict` (`FraudPredictionResponse`, app.py lines
111-124). -/
structure FraudPredictionResponse where
  anomalyScore : ℝ
  isAnomaly : Bool
  confidence : ℝ
  explanation : String

/-- The error raised through FastAPI (`HTTPException(status_code, detail)`). -/
structure HTTPException where
  status_code : ℕ
  detail : String

/-- The loaded Isolation Forest model, seen at its interface boundary:
`model.predict(X)[0]` (label, -1 = anomaly / 1 = normal),
`model.score_samples(X)[0]` and `model.decision_function(X)[0]`, each on
a single scaled feature row. -/
structure IsolationForestModel where
  predictRow : List ℝ → ℤ
  scoreSamplesRow : List ℝ → ℝ
  decisionFunctionRow : List ℝ → ℝ

/-- The loaded feature scaler: `scaler.transform` on a single feature row. -/
structure FeatureScaler where
  transformRow : List ℚ → List ℝ

/-- Python `x or 0` on an `Optional[int]`: `None` and the falsy value `0`
both yield `0`. -/
def pyOrZ : Option ℤ → ℤ
  | none => 0
  | some v => if v = 0 then 0 else v

/-- Python `x or 0.0` on an `Optional[float]`: `None` and the falsy value
`0.0` both yield `0.0`. -/
def pyOrQ : Option ℚ → ℚ
  | none => 0
  | some v => if v = 0 then 0 else v

/-- Python truthiness of an `Optional[bool]` (`1 if x else 0`): only
`True` is truthy; `None` and `False` are falsy. -/
def pyTruthy : Option Bool → Bool
  | some true => true
  | _ => false

/-- Step 1 of `predict_fraud` (app.py lines 169-178): the 8-element
feature row, in the training column order. -/
def extract_features (transaction : TransactionRequest) : List ℚ :=
  [ transaction.amount,
    (pyOrZ transaction.accountAgeDays : ℚ),
    pyOrQ transaction.confidence,
    pyOrQ transaction.totalCost,
    if pyTruthy transaction.newAccount then 1 else 0,
    if pyTruthy transaction.internationalTransfer then 1 else 0,
    if pyTruthy transaction.unusualHour then 1 else 0,
    (pyOrZ transaction.riskFlagCount : ℚ) ]

/-- Pydantic parsing of a request body: an outer `none` means the field
is absent from the body, in which case the `Field` default of app.py
lines 101-108 is used (`None`, `None`, `0.0`, `False`, `False`, `False`,
`0`); an outer `some` is the value explicitly supplied by the caller. -/
def parseRequest (amount : ℚ) (accountAgeDays : Option (Option ℤ))
    (confidence : Option (Option ℚ)) (totalCost : Option (Option ℚ))
    (newAccount : Option (Option Bool)) (internationalTransfer : Option (Option Bool))
    (unusualHour : Option (Option Bool)) (riskFlagCount : Option (Option ℤ)) :
    TransactionRequest where
  amount := amount
  accountAgeDays := accountAgeDays.getD none
  confidence := confidence.getD none
  totalCost := totalCost.getD (some 0)
  newAccount := newAccount.getD (some false)
  internationalTransfer := internationalTransfer.getD (some false)
  unusualHour := unusualHour.getD (some false)
  riskFlagCount := riskFlagCount.getD (some 0)

/-- Two decimal digits, zero padded (the fractional part of a `.2f`
format). -/
def pad2 (k : ℕ) : String :=
  if k < 10 then "0" ++ toString k else toString k

/-- Groups of three characters, starting from the head of the list. -/
def chunk3 : List Char → List (List Char)
  | [] => []
  | [a] => [[a]]
  | [a, b] => [[a, b]]
  | [a, b, c] => [[a, b, c]]
  | a :: b :: c :: d :: rest => [a, b, c] :: chunk3 (d :: rest)

/-- Thousands grouping of a natural number with commas, as in Python's
`,` format option: `7500 ↦ "7,500"`. -/
def commaGroup (m : ℕ) : String :=
  String.intercalate ","
    (((chunk3 (toString m).data.reverse).map (fun c => String.mk c.reverse)).reverse)

/-- Round-half-even (banker's rounding) to an integer, on rationals.
This is the rounding used by Python's `round` builtin and by the `f`
string-format presentation types. -/
def roundHalfEvenQ (x : ℚ) : ℤ :=
  if Int.fract x < 1 / 2 then ⌊x⌋
  else if 1 / 2 < Int.fract x then ⌊x⌋ + 1
  else if ⌊x⌋ % 2 = 0 then ⌊x⌋ else ⌊x⌋ + 1

/-- Python `f"{q:,.2f}"` on a rational value: two decimal digits with
half-even rounding and comma thousands grouping. -/
def pyFmtComma2 (q : ℚ) : String :=
  (if roundHalfEvenQ (q * 100) < 0 then "-" else "")
    ++ commaGroup ((roundHalfEvenQ (q * 100)).natAbs / 100)
    ++ "." ++ pad2 ((roundHalfEvenQ (q * 100)).natAbs % 100)

/-- The `risk_factors` list built by `generate_explanation` (app.py lines
241-252): one clause per firing indicator, appended in the fixed scan
order.  Note on the last indicator: in CPython, `transaction.riskFlagCount > 2`
raises a `TypeError` when the field is explicitly `null` (then caught by
the handler's blanket `except`); the embedding is total, and theorems
about explanations of well-formed requests assume the field carries an
integer. -/
def risk_factors_of (transaction : TransactionRequest) : List String :=
  (if transaction.amount > 5000 then
      ["high amount ($" ++ pyFmtComma2 transaction.amount ++ ")"]
    else [])
  ++ (if pyTruthy transaction.newAccount then ["new account"] else [])
  ++ (if pyTruthy transaction.internationalTransfer then ["international transfer"] else [])
  ++ (if pyTruthy transaction.unusualHour then ["unusual hour"] else [])
  ++ (match transaction.riskFlagCount with
      | some n => if n > 2 then ["multiple risk flags (" ++ toString n ++ ")"] else []
      | none => [])

/-- Round-half-even to an integer, on real numbers (the rounding of
Python's `round(x, ndigits)` and of the `.2f` format, applied to real
score values). -/
noncomputable def roundHalfEvenR (x : ℝ) : ℤ :=
  if Int.fract x < 1 / 2 then ⌊x⌋
  else if 1 / 2 < Int.fract x then ⌊x⌋ + 1
  else if ⌊x⌋ % 2 = 0 then ⌊x⌋ else ⌊x⌋ + 1

/-- Python `round(x, 4)` on a real score value (app.py lines 222 and 224). -/
noncomputable def pyRound4 (x : ℝ) : ℝ :=
  (roundHalfEvenR (x * 10000) : ℝ) / 10000

/-- Python `f"{x:.2f}"` on a real score value: two decimal digits with
half-even rounding, no thousands grouping. -/
noncomputable def pyFmt2 (x : ℝ) : String :=
  (if roundHalfEvenR (x * 100) < 0 then "-" else "")
    ++ toString ((roundHalfEvenR (x * 100)).natAbs / 100)
    ++ "." ++ pad2 ((roundHalfEvenR (x * 100)).natAbs % 100)

/-- The explanation generator `generate_explanation` (app.py lines
232-260). -/
noncomputable def generate_explanation (transaction : TransactionRequest)
    (score : ℝ) (is_anomaly : Bool) : String :=
  let risk_factors := risk_factors_of transaction
  if is_anomaly then
    if risk_factors ≠ [] then
      "Anomaly detected (score: " ++ pyFmt2 score ++ "). Risk factors: "
        ++ String.intercalate ", " risk_factors
    else
      "Anomaly detected (score: " ++ pyFmt2 score
        ++ "). Transaction pattern deviates significantly from normal behavior."
  else
    "Normal transaction (score: " ++ pyFmt2 score
      ++ "). No significant anomalies detected."

/-- The score normalizer of §4.1, exactly the surviving transformation at
app.py line 207: a logistic squash of the decision-function score. -/
noncomputable def normalize (r : ℝ) : ℝ := 1 / (1 + Real.exp r)

/-- The confidence measure of app.py line 219: distance from the 0.5
decision boundary, rescaled to the 0-1 range. -/
noncomputable def confidence_of (s : ℝ) : ℝ := |s - 0.5| * 2

/-- The body of `predict_fraud` (app.py lines 167-226), once the model
and scaler are loaded.  The external capability calls are modelled as
total functions, so the blanket `except` branch (500) is unreachable in
the model.  The two label-based score derivations and their clamps are
translated verbatim, including the rebinding that discards them. -/
noncomputable def predict_fraud_body (model : IsolationForestModel)
    (scaler : FeatureScaler) (transaction : TransactionRequest) :
    FraudPredictionResponse :=
  let features := extract_features transaction
  let features_scaled := scaler.transformRow features
  let prediction := model.predictRow features_scaled
  let raw_score := model.scoreSamplesRow features_scaled
  let anomaly_score : ℝ :=
    if prediction = -1 then
      max 0.5 (min 1.0 (1 / (1 + Real.exp raw_score)))
    else
      max 0.0 (min 0.5 (1 / (1 + Real.exp (-raw_score))))
  let decision_score := model.decisionFunctionRow features_scaled
  let normalized_score := 1 / (1 + Real.exp decision_score)
  let anomaly_score := normalized_score
  let is_anomaly : Bool := if anomaly_score > 0.5 then true else false
  let explanation := generate_explanation transaction anomaly_score is_anomaly
  let confidence := |anomaly_score - 0.5| * 2
  { anomalyScore := pyRound4 anomaly_score
    isAnomaly := is_anomaly
    confidence := pyRound4 confidence
    explanation := explanation }

/-- The `/predict` handler `predict_fraud` (app.py lines 148-229): a 503
`HTTPException` when the model or the scaler is not loaded, the pipeline
body otherwise. -/
noncomputable def predict_fraud (model : Option IsolationForestModel)
    (scaler : Option FeatureScaler) (transaction : TransactionRequest) :
    Except HTTPException FraudPredictionResponse :=
  match model, scaler with
  | some m, some s => .ok (predict_fraud_body m s transaction)
  | _, _ => .error ⟨503, "Model not loaded"⟩

/-- Modelled from the spec: the simplified pipeline of §4.1 and §9 that
computes only the decision-function-based normalization and omits the
discarded label-based sigmoid and inverse-sigmoid derivations. -/
noncomputable def predict_fraud_simplified_body (model : IsolationForestModel)
    (scaler : FeatureScaler) (transaction : TransactionRequest) :
    FraudPredictionResponse :=
  let features := extract_features transaction
  let features_scaled := scaler.transformRow features
  let decision_score := model.decisionFunctionRow features_scaled
  let anomaly_score := normalize decision_score
  let is_anomaly : Bool := if anomaly_score > 0.5 then true else false
  let explanation := generate_explanation transaction anomaly_score is_anomaly
  let confidence := |anomaly_score - 0.5| * 2
  { anomalyScore := pyRound4 anomaly_score
    isAnomaly := is_anomaly
    confidence := pyRound4 confidence
    explanation := explanation }

/-- Modelled from the spec: the `/predict` handler over the simplified
pipeline, keeping the §6 unavailable-capability gate. -/
noncomputable def predict_fraud_simplified (model : Option IsolationForestModel)
    (scaler : Option FeatureScaler) (transaction : TransactionRequest) :
    Except HTTPException FraudPredictionResponse :=
  match model, scaler with
  | some m, some s => .ok (predict_fraud_simplified_body m s transaction)
  | _, _ => .error ⟨503, "Model not loaded"⟩

/-- The decision-function score the pipeline feeds to the normalizer
(app.py line 204), as a function of the loaded capability and the
request. -/
noncomputable def decision_score_of (model : IsolationForestModel)
    (scaler : FeatureScaler) (transaction : TransactionRequest) : ℝ :=
  model.decisionFunctionRow (scaler.transformRow (extract_features transaction))

/-- A transaction with only the required `amount` supplied; every
optional field carries its parse-time default. -/
def reqDefault : TransactionRequest := { amount := 100 }

/-- The request of spec Scenario B: amount 7500.50, new account, all
other optional fields at their defaults. -/
def scenarioB : TransactionRequest := { amount := 7500.5, newAccount := some true }

/-- A request sitting exactly on both indicator thresholds: amount 5000
and risk-flag count 2. -/
def reqBoundary : TransactionRequest := { amount := 5000, riskFlagCount := some 2 }

/-- A concrete loaded capability whose decision function is identically
zero (and whose label is `1`, normal). -/
noncomputable def modelZero : IsolationForestModel :=
  ⟨fun _ => 1, fun _ => 0, fun _ => 0⟩

/-- A concrete loaded scaler that casts the raw features unchanged. -/
noncomputable def scalerCast : FeatureScaler :=
  ⟨fun v => v.map (fun q => (q : ℝ))⟩

lemma roundHalfEvenQ_intCast (n : ℤ) : roundHalfEvenQ ((n : ℚ)) = n := by
  unfold roundHalfEvenQ
  rw [Int.fract_intCast, Int.floor_intCast]
  norm_num

lemma roundHalfEvenR_intCast (n : ℤ) : roundHalfEvenR ((n : ℝ)) = n := by
  unfold roundHalfEvenR
  rw [Int.fract_intCast, Int.floor_intCast]
  norm_num

lemma pyFmt2_091 : pyFmt2 (0.91 : ℝ) = "0.91" := by
  have h : (0.91 : ℝ) * 100 = ((91 : ℤ) : ℝ) := by norm_num
  unfold pyFmt2
  rw [h, roundHalfEvenR_intCast]
  decide

lemma pyFmtComma2_7500_5 : pyFmtComma2 (7500.5 : ℚ) = "7,500.50" := by
  have h : (7500.5 : ℚ) * 100 = ((750050 : ℤ) : ℚ) := by norm_num
  unfold pyFmtComma2
  rw [h, roundHalfEvenQ_intCast]
  decide

lemma pyRound4_half : pyRound4 (0.5 : ℝ) = 0.5 := by
  have h : (0.5 : ℝ) * 10000 = ((5000 : ℤ) : ℝ) := by norm_num
  unfold pyRound4
  rw [h, roundHalfEvenR_intCast]
  norm_num

lemma normalize_pos (r : ℝ) : 0 < normalize r := by
  unfold normalize
  positivity

lemma normalize_le_one (r : ℝ) : normalize r ≤ 1 := by
  unfold normalize
  rw [div_le_one (by positivity)]
  have := Real.exp_pos r
  linarith

lemma normalize_antitone {a b : ℝ} (h : a ≤ b) : normalize b ≤ normalize a := by
  unfold normalize
  exact one_div_le_one_div_of_le (by positivity)
    (by have := Real.exp_le_exp.2 h; linarith)

lemma normalize_zero : normalize 0 = 0.5 := by
  unfold normalize
  rw [Real.exp_zero]
  norm_num

lemma normalize_gt_half_iff (r : ℝ) : 0.5 < normalize r ↔ r < 0 := by
  unfold normalize
  rw [show (0.5 : ℝ) = 1 / 2 by norm_num,
    div_lt_div_iff₀ (by norm_num) (by positivity), one_mul, one_mul,
    show (2 : ℝ) = 1 + 1 by norm_num, add_lt_add_iff_left, Real.exp_lt_one_iff]

/-- The pipeline's decision bit, characterized against the unrounded
normalized score (app.py line 213). -/
lemma body_isAnomaly (m : IsolationForestModel) (s : FeatureScaler)
    (t : TransactionRequest) :
    (predict_fraud_body m s t).isAnomaly
      = if 0.5 < normalize (decision_score_of m s t) then true else false := rfl

lemma pyOrZ_some (n : ℤ) : pyOrZ (some n) = n := by
  by_cases h : n = 0 <;> simp [pyOrZ, h]

lemma ite_singleton_sublist (p : Prop) [Decidable p] (x : String) :
    (if p then [x] else []).Sublist [x] := by
  split
  · exact List.Sublist.refl _
  · exact List.nil_sublist _

lemma mem_ite_singleton {p : Prop} [Decidable p] {x y : String}
    (hy : y ∈ (if p then [x] else [])) : y = x := by
  split at hy
  · simpa using hy
  · simp at hy

lemma head_append_left (s t : String) (c : Char) (h : s.data.head? = some c) :
    (s ++ t).data.head? = some c := by
  rcases s with ⟨l⟩
  rcases t with ⟨m⟩
  cases l with
  | nil => simp at h
  | cons a as =>
    show ((a :: as) ++ m).head? = some c
    simpa using h

lemma string_ne_of_head {a b : String} {ca cb : Char} (ha : a.data.head? = some ca)
    (hb : b.data.head? = some cb) (hne : ca ≠ cb) : a ≠ b := by
  intro h
  subst h
  rw [ha] at hb
  exact hne (Option.some.inj hb)

/-- C1: For every finite raw decision score r returned by the scoring
capability, the anomaly score produced by the prediction pipeline equals
the logistic squash 1 / (1 + exp r), surfaced after the cosmetic
4-decimal rounding; consequently it lies in [0,1], is monotonically
non-increasing in r, and maps r = 0 to 0.5. -/
theorem C1_logistic_squash (m : IsolationForestModel) (s : FeatureScaler)
    (t : TransactionRequest) (a b : ℝ) (hab : a ≤ b) :
    (predict_fraud_body m s t).anomalyScore
        = pyRound4 (normalize (decision_score_of m s t))
    ∧ normalize (decision_score_of m s t)
        = 1 / (1 + Real.exp (decision_score_of m s t))
    ∧ (0 ≤ normalize (decision_score_of m s t)
        ∧ normalize (decision_score_of m s t) ≤ 1)
    ∧ normalize b ≤ normalize a
    ∧ normalize 0 = 0.5 :=
  ⟨rfl, rfl, ⟨le_of_lt (normalize_pos _), normalize_le_one _⟩,
    normalize_antitone hab, normalize_zero⟩

theorem C1_witness :
    (predict_fraud_body modelZero scalerCast reqDefault).anomalyScore
        = pyRound4 (normalize (decision_score_of modelZero scalerCast reqDefault))
    ∧ normalize 1 ≤ normalize 0 :=
  ⟨(C1_logistic_squash modelZero scalerCast reqDefault 0 1 (by norm_num)).1,
   (C1_logistic_squash modelZero scalerCast reqDefault 0 1 (by norm_num)).2.2.2.1⟩

/-- C2: For every finite raw decision score, isAnomaly is true iff the
unrounded anomaly score is strictly greater than 0.5, equivalently iff
the raw score is strictly negative; a raw score of exactly 0 yields
anomalyScore 0.5 and isAnomaly false; and the 4-decimal rounding of the
surfaced score never changes the decision, because the decision is a
function of the unrounded value only. -/
theorem C2_decision_rule (m : IsolationForestModel) (s : FeatureScaler)
    (t : TransactionRequest) :
    ((predict_fraud_body m s t).isAnomaly = true
        ↔ 0.5 < normalize (decision_score_of m s t))
    ∧ ((predict_fraud_body m s t).isAnomaly = true
        ↔ decision_score_of m s t < 0)
    ∧ normalize 0 = 0.5
    ∧ (decision_score_of m s t = 0 →
        (predict_fraud_body m s t).isAnomaly = false
          ∧ (predict_fraud_body m s t).anomalyScore = 0.5)
    ∧ (predict_fraud_body m s t).anomalyScore
        = pyRound4 (normalize (decision_score_of m s t)) := by
  have hchar : (predict_fraud_body m s t).isAnomaly = true
      ↔ 0.5 < normalize (decision_score_of m s t) := by
    rw [body_isAnomaly]
    split
    · simp_all
    · simp_all
  refine ⟨hchar, hchar.trans (normalize_gt_half_iff _), normalize_zero, ?_, rfl⟩
  intro h0
  constructor
  · rw [body_isAnomaly, h0, normalize_zero, if_neg (lt_irrefl (0.5 : ℝ))]
  · show pyRound4 (normalize (decision_score_of m s t)) = 0.5
    rw [h0, normalize_zero, pyRound4_half]

theorem C2_witness :
    (predict_fraud_body modelZero scalerCast reqDefault).isAnomaly = false
    ∧ (predict_fraud_body modelZero scalerCast reqDefault).anomalyScore = 0.5 :=
  (C2_decision_rule modelZero scalerCast reqDefault).2.2.2.1 rfl

/-- C3: For every unrounded anomaly score s produced by the normalizer,
the confidence returned to the caller equals 2 * the absolute distance
of s from 0.5, before its own 4-decimal rounding; so it lies in [0,1]
when s does, equals 0 when s = 0.5, and equals 1 when s = 0 or s = 1. -/
theorem C3_confidence (m : IsolationForestModel) (s : FeatureScaler)
    (t : TransactionRequest) (x : ℝ) (h0 : 0 ≤ x) (h1 : x ≤ 1) :
    (predict_fraud_body m s t).confidence
        = pyRound4 (confidence_of (normalize (decision_score_of m s t)))
    ∧ confidence_of x = 2 * |x - 0.5|
    ∧ (0 ≤ confidence_of x ∧ confidence_of x ≤ 1)
    ∧ confidence_of 0.5 = 0
    ∧ confidence_of 0 = 1
    ∧ confidence_of 1 = 1 := by
  refine ⟨rfl, by unfold confidence_of; ring, ⟨?_, ?_⟩, ?_, ?_, ?_⟩
  · unfold confidence_of; positivity
  · have habs : |x - 0.5| ≤ 0.5 := abs_le.2 ⟨by linarith, by linarith⟩
    unfold confidence_of
    linarith
  · unfold confidence_of
    norm_num
  · unfold confidence_of
    rw [show (0 : ℝ) - 0.5 = -0.5 by norm_num, abs_neg,
      abs_of_nonneg (by norm_num : (0 : ℝ) ≤ 0.5)]
    norm_num
  · unfold confidence_of
    rw [show (1 : ℝ) - 0.5 = 0.5 by norm_num,
      abs_of_nonneg (by norm_num : (0 : ℝ) ≤ 0.5)]
    norm_num

theorem C3_witness :
    (predict_fraud_body modelZero scalerCast reqDefault).confidence
        = pyRound4 (confidence_of (normalize (decision_score_of modelZero scalerCast reqDefault)))
    ∧ (0 ≤ confidence_of 1 ∧ confidence_of 1 ≤ 1) :=
  ⟨(C3_confidence modelZero scalerCast reqDefault 1 (by norm_num) (by norm_num)).1,
   (C3_confidence modelZero scalerCast reqDefault 1 (by norm_num) (by norm_num)).2.2.1⟩

/-- C5: For every input, the response of the full prediction pipeline is
identical to that of the simplified pipeline that computes only the
decision-function-based normalization: the label-based sigmoid and
inverse-sigmoid computations and their clamps are dead logic whose
results never affect any field of the response. -/
theorem C5_dead_code_equivalence (model : Option IsolationForestModel)
    (scaler : Option FeatureScaler) (t : TransactionRequest) :
    predict_fraud model scaler t = predict_fraud_simplified model scaler t := by
  cases model <;> cases scaler <;> rfl

/-- C7: Whenever the scoring capability (model or scaler) is not loaded,
every prediction request is rejected with a 503 service-unavailable
error, before any feature extraction, scaling, or scoring computation;
the result does not depend on the request or on the loaded half of the
capability. -/
theorem C7_service_unavailable (model : Option IsolationForestModel)
    (scaler : Option FeatureScaler) (t : TransactionRequest)
    (h : model = none ∨ scaler = none) :
    predict_fraud model scaler t = .error ⟨503, "Model not loaded"⟩ := by
  rcases h with h | h
  · subst h; cases scaler <;> rfl
  · subst h; cases model <;> rfl

theorem C7_witness :
    predict_fraud none none reqDefault = .error ⟨503, "Model not loaded"⟩ :=
  C7_service_unavailable none none reqDefault (Or.inl rfl)

/-- C8: For every request in which an optional feature field is absent,
the value handed to the scoring capability is the documented neutral
default — 0 for accountAgeDays and riskFlagCount, 0.0 for confidence and
totalCost, false (encoded 0) for the three boolean flags — and the
8-element feature vector is built in the fixed documented order, with
amount in position 0. -/
theorem C8_feature_defaults (a : ℚ) (x₁ : Option (Option ℤ))
    (x₂ x₃ : Option (Option ℚ)) (x₄ x₅ x₆ : Option (Option Bool))
    (x₇ : Option (Option ℤ)) :
    (extract_features (parseRequest a x₁ x₂ x₃ x₄ x₅ x₆ x₇)).length = 8
    ∧ (extract_features (parseRequest a x₁ x₂ x₃ x₄ x₅ x₆ x₇))[0]? = some a
    ∧ (x₁ = none → (extract_features (parseRequest a x₁ x₂ x₃ x₄ x₅ x₆ x₇))[1]? = some 0)
    ∧ (x₂ = none → (extract_features (parseRequest a x₁ x₂ x₃ x₄ x₅ x₆ x₇))[2]? = some 0)
    ∧ (x₃ = none → (extract_features (parseRequest a x₁ x₂ x₃ x₄ x₅ x₆ x₇))[3]? = some 0)
    ∧ (x₄ = none → (extract_features (parseRequest a x₁ x₂ x₃ x₄ x₅ x₆ x₇))[4]? = some 0)
    ∧ (x₅ = none → (extract_features (parseRequest a x₁ x₂ x₃ x₄ x₅ x₆ x₇))[5]? = some 0)
    ∧ (x₆ = none → (extract_features (parseRequest a x₁ x₂ x₃ x₄ x₅ x₆ x₇))[6]? = some 0)
    ∧ (x₇ = none → (extract_features (parseRequest a x₁ x₂ x₃ x₄ x₅ x₆ x₇))[7]? = some 0) := by
  refine ⟨rfl, rfl, ?_, ?_, ?_, ?_, ?_, ?_, ?_⟩ <;> (intro h; subst h; rfl)

theorem C8_witness :
    (extract_features (parseRequest 100 none none none none none none none))[1]? = some 0
    ∧ (extract_features (parseRequest 100 none none none none none none none))[2]? = some 0
    ∧ (extract_features (parseRequest 100 none none none none none none none))[3]? = some 0
    ∧ (extract_features (parseRequest 100 none none none none none none none))[4]? = some 0
    ∧ (extract_features (parseRequest 100 none none none none none none none))[5]? = some 0
    ∧ (extract_features (parseRequest 100 none none none none none none none))[6]? = some 0
    ∧ (extract_features (parseRequest 100 none none none none none none none))[7]? = some 0 :=
  ⟨(C8_feature_defaults 100 none none none none none none none).2.2.1 rfl,
   (C8_feature_defaults 100 none none none none none none none).2.2.2.1 rfl,
   (C8_feature_defaults 100 none none none none none none none).2.2.2.2.1 rfl,
   (C8_feature_defaults 100 none none none none none none none).2.2.2.2.2.1 rfl,
   (C8_feature_defaults 100 none none none none none none none).2.2.2.2.2.2.1 rfl,
   (C8_feature_defaults 100 none none none none none none none).2.2.2.2.2.2.2.1 rfl,
   (C8_feature_defaults 100 none none none none none none none).2.2.2.2.2.2.2.2 rfl⟩

lemma risk_factors_scenarioB :
    risk_factors_of scenarioB = ["high amount ($7,500.50)", "new account"] := by
  have h : risk_factors_of scenarioB
      = ["high amount ($" ++ pyFmtComma2 scenarioB.amount ++ ")"]
        ++ ["new account"] ++ [] ++ [] ++ [] := by
    unfold risk_factors_of
    rw [if_pos (show scenarioB.amount > 5000 from by norm_num [scenarioB])]
    rfl
  rw [h, show scenarioB.amount = (7500.5 : ℚ) from rfl, pyFmtComma2_7500_5]
  decide

/-- C4: For every well-formed input, the explanation string is exactly
one of the three fixed templates with the score formatted to exactly 2
decimal digits, and the indicator clauses are appended in the fixed scan
order — high amount, new account, international transfer, unusual hour,
multiple risk flags — joined by a comma and space; in particular, for
amount 7500.50, newAccount true, score 0.91, isAnomaly true, the output
is exactly the Scenario B string. -/
theorem C4_explanation_templates (t : TransactionRequest) (s : ℝ) (b : Bool)
    (hrf : t.riskFlagCount ≠ none) :
    (generate_explanation t s b =
      if b then
        if risk_factors_of t ≠ [] then
          "Anomaly detected (score: " ++ pyFmt2 s ++ "). Risk factors: "
            ++ String.intercalate ", " (risk_factors_of t)
        else
          "Anomaly detected (score: " ++ pyFmt2 s
            ++ "). Transaction pattern deviates significantly from normal behavior."
      else
        "Normal transaction (score: " ++ pyFmt2 s
          ++ "). No significant anomalies detected.")
    ∧ (risk_factors_of t).Sublist
        [ "high amount ($" ++ pyFmtComma2 t.amount ++ ")",
          "new account", "international transfer", "unusual hour",
          "multiple risk flags (" ++ toString (pyOrZ t.riskFlagCount) ++ ")" ]
    ∧ generate_explanation scenarioB 0.91 true
        = "Anomaly detected (score: 0.91). Risk factors: high amount ($7,500.50), new account" := by
  refine ⟨rfl, ?_, ?_⟩
  · obtain ⟨n, hn⟩ := Option.ne_none_iff_exists'.mp hrf
    unfold risk_factors_of
    rw [hn, pyOrZ_some]
    show List.Sublist _
      (["high amount ($" ++ pyFmtComma2 t.amount ++ ")"]
        ++ ["new account"] ++ ["international transfer"] ++ ["unusual hour"]
        ++ ["multiple risk flags (" ++ toString n ++ ")"])
    exact ((((ite_singleton_sublist _ _).append
      (ite_singleton_sublist _ _)).append
      (ite_singleton_sublist _ _)).append
      (ite_singleton_sublist _ _)).append
      (ite_singleton_sublist _ _)
  · simp only [generate_explanation, risk_factors_scenarioB, pyFmt2_091]
    decide

theorem C4_witness :
    generate_explanation scenarioB 0.91 true
      = "Anomaly detected (score: 0.91). Risk factors: high amount ($7,500.50), new account"
    ∧ (risk_factors_of scenarioB).Sublist
        [ "high amount ($" ++ pyFmtComma2 scenarioB.amount ++ ")",
          "new account", "international transfer", "unusual hour",
          "multiple risk flags (" ++ toString (pyOrZ scenarioB.riskFlagCount) ++ ")" ] :=
  ⟨(C4_explanation_templates scenarioB 0.91 true (by decide)).2.2,
   (C4_explanation_templates scenarioB 0.91 true (by decide)).2.1⟩

/-- C9: The explanation generator is a deterministic pure function: any
two calls with identical (features, anomalyScore, isAnomaly) inputs
produce byte-identical output strings, with no dependence on hidden
state. -/
theorem C9_explanation_deterministic (t₁ t₂ : TransactionRequest) (s₁ s₂ : ℝ)
    (b₁ b₂ : Bool) (ht : t₁ = t₂) (hs : s₁ = s₂) (hb : b₁ = b₂) :
    generate_explanation t₁ s₁ b₁ = generate_explanation t₂ s₂ b₂ := by
  subst ht
  subst hs
  subst hb
  rfl

theorem C9_witness :
    generate_explanation reqDefault 0.32 false = generate_explanation reqDefault 0.32 false :=
  C9_explanation_deterministic reqDefault reqDefault 0.32 0.32 false false rfl rfl rfl

lemma head_high_amount (x : String) :
    ("high amount ($" ++ x ++ ")").data.head? = some 'h' :=
  head_append_left _ _ _ rfl

lemma head_multiple_flags (x : String) :
    ("multiple risk flags (" ++ x ++ ")").data.head? = some 'm' :=
  head_append_left _ _ _ rfl

/-- C10: The indicator thresholds in the explanation generator are
strict inequalities: an amount exactly equal to 5000 produces no high
amount clause, and a riskFlagCount exactly equal to 2 produces no
multiple risk flags clause. -/
theorem C10_strict_thresholds (t : TransactionRequest) :
    (t.amount = 5000 →
      ∀ q : ℚ, ("high amount ($" ++ pyFmtComma2 q ++ ")") ∉ risk_factors_of t)
    ∧ (t.riskFlagCount = some 2 →
      ∀ n : ℤ, ("multiple risk flags (" ++ toString n ++ ")") ∉ risk_factors_of t) := by
  constructor
  · intro h5 q hmem
    unfold risk_factors_of at hmem
    rw [h5, if_neg (by norm_num : ¬((5000 : ℚ) > 5000))] at hmem
    simp only [List.nil_append, List.mem_append] at hmem
    rcases hmem with ((hm | hm) | hm) | hm
    · exact string_ne_of_head (head_high_amount _)
        (show ("new account" : String).data.head? = some 'n' from rfl)
        (by decide) (mem_ite_singleton hm)
    · exact string_ne_of_head (head_high_amount _)
        (show ("international transfer" : String).data.head? = some 'i' from rfl)
        (by decide) (mem_ite_singleton hm)
    · exact string_ne_of_head (head_high_amount _)
        (show ("unusual hour" : String).data.head? = some 'u' from rfl)
        (by decide) (mem_ite_singleton hm)
    · cases hc : t.riskFlagCount with
      | none => rw [hc] at hm; simp at hm
      | some k =>
        rw [hc] at hm
        exact string_ne_of_head (head_high_amount _) (head_multiple_flags _)
          (by decide) (mem_ite_singleton hm)
  · intro h2 n hmem
    unfold risk_factors_of at hmem
    rw [h2] at hmem
    simp only [List.mem_append] at hmem
    rcases hmem with (((hm | hm) | hm) | hm) | hm
    · exact string_ne_of_head (head_multiple_flags _) (head_high_amount _)
        (by decide) (mem_ite_singleton hm)
    · exact string_ne_of_head (head_multiple_flags _)
        (show ("new account" : String).data.head? = some 'n' from rfl)
        (by decide) (mem_ite_singleton hm)
    · exact string_ne_of_head (head_multiple_flags _)
        (show ("international transfer" : String).data.head? = some 'i' from rfl)
        (by decide) (mem_ite_singleton hm)
    · exact string_ne_of_head (head_multiple_flags _)
        (show ("unusual hour" : String).data.head? = some 'u' from rfl)
        (by decide) (mem_ite_singleton hm)
    · rw [show (if (2 : ℤ) > 2 then ["multiple risk flags (" ++ toString (2 : ℤ) ++ ")"] else [])
          = [] from by norm_num] at hm
      simp at hm

theorem C10_witness :
    ("high amount ($" ++ pyFmtComma2 5000 ++ ")") ∉ risk_factors_of reqBoundary
    ∧ ("multiple risk flags (" ++ toString (2 : ℤ) ++ ")") ∉ risk_factors_of reqBoundary :=
  ⟨(C10_strict_thresholds reqBoundary).1 rfl 5000,
   (C10_strict_thresholds reqBoundary).2 rfl 2⟩

end MLService

